import Mathlib

/-!
Shallow embedding of the FarmTech ESP32 irrigation controller
(`FarmTech_ESP32/src/main.cpp`) and proofs about its decision policy.

Modelling conventions:
* C++ `float` sensor values are modelled as rationals (`ℚ`); the decision
  cascade only compares them against constant thresholds, so no rounding is
  involved and `ℚ` is exact for every comparison the code performs.
* A reading of the DHT22 sensor that fails yields `NaN` in the C++ code; a
  possibly-failed reading is modelled as `Option ℚ`, with `none` standing
  for `NaN` (`isnan` tests become pattern matches on `none`).
* Arduino's `map` is `long map(long, long, long, long, long)`; the call
  `map(valorLDR, 0, 4095, 0.0, 14.0)` therefore converts the bounds `0.0`
  and `14.0` to the longs `0` and `14` and performs truncating integer
  division (C++ `/` on `long`, which is truncation toward zero, `Int.tdiv`).
* The relay write `digitalWrite(PINO_RELE_BOMBA, ...)` is modelled as the
  boolean field `releBomba` of the cycle result (`true` = `HIGH` = pump on),
  and the `delay(...)` calls as the `delayMs` field.
-/

namespace FarmTech

/-- Threshold `UMIDADE_MINIMA_PARA_IRRIGAR = 20.0` from `main.cpp`. -/
def UMIDADE_MINIMA_PARA_IRRIGAR : ℚ := 20.0

/-- Threshold `UMIDADE_ALTA_PARAR_IRRIGACAO = 30.0` from `main.cpp`. -/
def UMIDADE_ALTA_PARAR_IRRIGACAO : ℚ := 30.0

/-- Threshold `UMIDADE_CRITICA_BAIXA = 15.0` from `main.cpp`. -/
def UMIDADE_CRITICA_BAIXA : ℚ := 15.0

/-- Threshold `PH_IDEAL_MINIMO = 5.5` from `main.cpp`. -/
def PH_IDEAL_MINIMO : ℚ := 5.5

/-- Threshold `PH_IDEAL_MAXIMO = 6.5` from `main.cpp`. -/
def PH_IDEAL_MAXIMO : ℚ := 6.5

/-- Threshold `PH_CRITICO_MINIMO = 4.5` from `main.cpp`. -/
def PH_CRITICO_MINIMO : ℚ := 4.5

/-- Threshold `PH_CRITICO_MAXIMO = 7.5` from `main.cpp`. -/
def PH_CRITICO_MAXIMO : ℚ := 7.5

/-- Output of one policy evaluation: the pair of locals `ligarBomba` and
`motivoDecisao` as they stand after the decision cascade in `loop`.
`String(float)` on Arduino prints two decimals, so the threshold values
embedded in the reason strings appear as `15.00`, `4.50-7.50`, etc. -/
structure PumpDecision where
  ligarBomba : Bool
  motivoDecisao : String

/-- Arduino's `long map(long x, long in_min, long in_max, long out_min,
long out_max)`: `(x - in_min) * (out_max - out_min) / (in_max - in_min) +
out_min`, where `/` is C++ `long` division, i.e. truncation toward zero
(`Int.tdiv`). -/
def arduinoMap (x inLo inHi outLo outHi : ℤ) : ℤ :=
  Int.tdiv ((x - inLo) * (outHi - outLo)) (inHi - inLo) + outLo

/-- `float phEstimado = map(valorLDR, 0, 4095, 0.0, 14.0)` from `loop`.
The float arguments `0.0` and `14.0` are implicitly converted to the longs
`0` and `14` by the call, so the computation is the integer
`valorLDR * 14 / 4095` converted to `float` (exact for values this small). -/
def phEstimadoOf (valorLDR : ℕ) : ℚ :=
  ((arduinoMap (valorLDR : ℤ) 0 4095 0 14 : ℤ) : ℚ)

/-- Mapping written in the specification for comparison with the code:
`ph = raw * 14.0 / 4095.0`, real-valued linear rescale of [0,4095] onto
[0.0,14.0]. -/
def phSpecFormula (valorLDR : ℕ) : ℚ :=
  (valorLDR : ℚ) * 14.0 / 4095.0

/-- The decision cascade of `loop` in `main.cpp` (lines 62-96): emergency
low humidity, else critical pH shutoff, else the low-humidity branch with
the ideal-pH band and the nutrient sub-cases, else high-humidity stop,
else the dead-band default.  Every branch assigns both `ligarBomba` and
`motivoDecisao`, so the initial values of the two locals are dead. -/
def decidePump (umidade phEstimado : ℚ) (fosforoPresente potassioPresente : Bool) :
    PumpDecision :=
  if umidade < UMIDADE_CRITICA_BAIXA then
    { ligarBomba := true
      motivoDecisao := "EMERGENCIA: Umidade critica baixa (<15.00%)." }
  else if phEstimado < PH_CRITICO_MINIMO ∨ phEstimado > PH_CRITICO_MAXIMO then
    { ligarBomba := false
      motivoDecisao := "Bomba DESLIGADA: pH critico (fora de 4.50-7.50)." }
  else if umidade < UMIDADE_MINIMA_PARA_IRRIGAR then
    if phEstimado ≥ PH_IDEAL_MINIMO ∧ phEstimado ≤ PH_IDEAL_MAXIMO then
      if fosforoPresente && potassioPresente then
        { ligarBomba := true
          motivoDecisao := "Bomba LIGADA: Umidade baixa, pH ideal, P e K presentes (irrig. normal)." }
      else if fosforoPresente || potassioPresente then
        { ligarBomba := true
          motivoDecisao := "Bomba LIGADA: Umidade baixa, pH ideal, P ou K presente (irrig. reduzida)." }
      else
        { ligarBomba := true
          motivoDecisao := "Bomba LIGADA: Umidade baixa, pH ideal, P e K ausentes (irrig. minima)." }
    else
      { ligarBomba := false
        motivoDecisao := "Bomba DESLIGADA: Umidade baixa, mas pH fora da faixa ideal (entre 5.50-6.50)." }
  else if umidade > UMIDADE_ALTA_PARAR_IRRIGACAO then
    { ligarBomba := false
      motivoDecisao := "Bomba DESLIGADA: Umidade alta (>30.00%)." }
  else
    { ligarBomba := false
      motivoDecisao := "Condicoes de umidade OK, bomba permanece desligada." }

/-- The sensor readings taken at the top of one `loop` iteration:
`fosforoPresente` and `potassioPresente` are `digitalRead(...) == LOW`,
`valorLDR` is `analogRead(PINO_LDR_PH)`, and the DHT22 humidity and
temperature readings are `none` when the C++ value is `NaN`. -/
structure CycleInput where
  fosforoPresente : Bool
  potassioPresente : Bool
  valorLDR : ℕ
  umidade : Option ℚ
  temperatura : Option ℚ

/-- Observable outcome of one `loop` iteration: the level written to the
pump relay (`true` = `HIGH`), the decision produced and reported on the
serial monitor (`none` when the DHT failure branch returns early, before
any decision is computed or printed), and the argument of the final
`delay(...)` of the iteration. -/
structure CycleResult where
  releBomba : Bool
  decisao : Option PumpDecision
  delayMs : ℕ

/-- One iteration of `loop`: if humidity or temperature is `NaN` the relay
is forced `LOW`, the iteration returns early after `delay(2000)` and no
decision is evaluated; otherwise the cascade runs on the snapshot, the
relay is written from `ligarBomba`, the decision is reported and the
iteration ends with `delay(3000)`. -/
def loopStep (inp : CycleInput) : CycleResult :=
  match inp.umidade, inp.temperatura with
  | some u, some _ =>
      let d := decidePump u (phEstimadoOf inp.valorLDR)
        inp.fosforoPresente inp.potassioPresente
      { releBomba := d.ligarBomba, decisao := some d, delayMs := 3000 }
  | _, _ => { releBomba := false, decisao := none, delayMs := 2000 }

/-- Successive iterations of `loop`. No variable survives from one
iteration to the next in `main.cpp` (all locals are re-read each cycle),
so the run is the pointwise image of the per-cycle inputs. -/
def runCycles (inps : List CycleInput) : List CycleResult :=
  inps.map loopStep

/-- The Arduino map call specialised as in `loop` equals truncating natural
division: `phEstimado` is the natural number `valorLDR * 14 / 4095` cast
into the rationals. -/
lemma phEstimadoOf_eq (raw : ℕ) :
    phEstimadoOf raw = ((raw * 14 / 4095 : ℕ) : ℚ) := by
  unfold phEstimadoOf arduinoMap
  have h1 : ((raw : ℤ) - 0) * (14 - 0) = ((raw * 14 : ℕ) : ℤ) := by
    push_cast
    ring
  have h2 : ((4095 : ℤ) - 0) = ((4095 : ℕ) : ℤ) := by norm_num
  rw [h1, h2, ← Int.ofNat_tdiv, add_zero, Int.cast_natCast]

/-- Characterisation of the boolean outcome of the cascade: the pump is
commanded on exactly when humidity is critically low, or humidity is below
the irrigation threshold with the estimated pH inside the ideal band. -/
lemma decidePump_ligar_iff (u ph : ℚ) (f k : Bool) :
    (decidePump u ph f k).ligarBomba = true ↔
      u < 15.0 ∨ (u < 20.0 ∧ 5.5 ≤ ph ∧ ph ≤ 6.5) := by
  unfold decidePump UMIDADE_CRITICA_BAIXA UMIDADE_MINIMA_PARA_IRRIGAR
    UMIDADE_ALTA_PARAR_IRRIGACAO PH_IDEAL_MINIMO PH_IDEAL_MAXIMO
    PH_CRITICO_MINIMO PH_CRITICO_MAXIMO
  by_cases h1 : u < (15.0 : ℚ)
  · rw [if_pos h1]
    exact iff_of_true rfl (Or.inl h1)
  · rw [if_neg h1]
    push_neg at h1
    by_cases h2 : ph < (4.5 : ℚ) ∨ ph > (7.5 : ℚ)
    · rw [if_pos h2]
      refine iff_of_false (by simp) ?_
      rintro (hg | ⟨hg1, hg2, hg3⟩)
      · linarith
      · rcases h2 with hc | hc <;> linarith
    · rw [if_neg h2]
      push_neg at h2
      by_cases h3 : u < (20.0 : ℚ)
      · rw [if_pos h3]
        by_cases h4 : ph ≥ (5.5 : ℚ) ∧ ph ≤ (6.5 : ℚ)
        · rw [if_pos h4]
          refine iff_of_true ?_ (Or.inr ⟨h3, h4.1, h4.2⟩)
          cases f <;> cases k <;> rfl
        · rw [if_neg h4]
          refine iff_of_false (by simp) ?_
          rintro (hg | ⟨hg1, hg2, hg3⟩)
          · linarith
          · exact h4 ⟨hg2, hg3⟩
      · rw [if_neg h3]
        push_neg at h3
        by_cases h5 : u > (30.0 : ℚ)
        · rw [if_pos h5]
          refine iff_of_false (by simp) ?_
          rintro (hg | ⟨hg1, hg2, hg3⟩) <;> linarith
        · rw [if_neg h5]
          refine iff_of_false (by simp) ?_
          rintro (hg | ⟨hg1, hg2, hg3⟩) <;> linarith

/-- Claim C1: emergency override dominance.  For every valid snapshot with
humidity below 15.0 the decision cascade commands the pump on, whatever
the estimated pH and the two nutrient flags are. -/
theorem emergencia_domina (u ph : ℚ) (f k : Bool) (h : u < 15.0) :
    (decidePump u ph f k).ligarBomba = true :=
  (decidePump_ligar_iff u ph f k).mpr (Or.inl h)

/-- Witness for claim C1 at the concrete snapshot of end-to-end scenario 1
(humidity 10.0, adverse pH 8.2, both nutrient flags false). -/
theorem emergencia_domina_witness :
    (decidePump 10 8.2 false false).ligarBomba = true :=
  emergencia_domina 10 8.2 false false (by norm_num)

/-- Claim C2: critical pH shutoff.  For every valid snapshot with humidity
at least 15.0 and estimated pH below 4.5 or above 7.5, the decision
cascade commands the pump off, whatever the nutrient flags are. -/
theorem ph_critico_desliga (u ph : ℚ) (f k : Bool) (h1 : 15.0 ≤ u)
    (h2 : ph < 4.5 ∨ ph > 7.5) :
    (decidePump u ph f k).ligarBomba = false := by
  cases hB : (decidePump u ph f k).ligarBomba with
  | false => rfl
  | true =>
      exfalso
      rcases (decidePump_ligar_iff u ph f k).mp hB with hg | ⟨hg1, hg2, hg3⟩
      · linarith
      · rcases h2 with hc | hc <;> linarith

/-- Witness for claim C2 at the concrete snapshot of end-to-end scenario 4
(humidity 18.0, critical pH 8.0, both nutrient flags true). -/
theorem ph_critico_desliga_witness :
    (decidePump 18 8 true true).ligarBomba = false :=
  ph_critico_desliga 18 8 true true (by norm_num) (Or.inr (by norm_num))

/-- Claim C3: low-humidity ideal-pH activation.  For every valid snapshot
with humidity in [15.0, 20.0) and estimated pH in [5.5, 6.5] the decision
cascade commands the pump on; quantifying over both boolean flags covers
all four phosphorus/potassium combinations (both present, exactly one
present — twice — and neither present). -/
theorem umidade_baixa_ph_ideal_liga (u ph : ℚ) (f k : Bool) (h1 : 15.0 ≤ u)
    (h2 : u < 20.0) (h3 : 5.5 ≤ ph) (h4 : ph ≤ 6.5) :
    (decidePump u ph f k).ligarBomba = true :=
  (decidePump_ligar_iff u ph f k).mpr (Or.inr ⟨h2, h3, h4⟩)

/-- Witness for claim C3 at the concrete snapshot of end-to-end scenario 3
(humidity 18.0, pH 6.0, both nutrient flags false). -/
theorem umidade_baixa_ph_ideal_liga_witness :
    (decidePump 18 6 false false).ligarBomba = true :=
  umidade_baixa_ph_ideal_liga 18 6 false false (by norm_num) (by norm_num)
    (by norm_num) (by norm_num)

/-- Claim C4: low-humidity non-ideal-pH stop.  For every valid snapshot
with humidity in [15.0, 20.0) and estimated pH in [4.5, 5.5) or in
(6.5, 7.5], the decision cascade commands the pump off, whatever the
nutrient flags are. -/
theorem umidade_baixa_ph_fora_ideal_desliga (u ph : ℚ) (f k : Bool)
    (h1 : 15.0 ≤ u) (h2 : u < 20.0)
    (h3 : (4.5 ≤ ph ∧ ph < 5.5) ∨ (6.5 < ph ∧ ph ≤ 7.5)) :
    (decidePump u ph f k).ligarBomba = false := by
  cases hB : (decidePump u ph f k).ligarBomba with
  | false => rfl
  | true =>
      exfalso
      rcases (decidePump_ligar_iff u ph f k).mp hB with hg | ⟨hg1, hg2, hg3⟩
      · linarith
      · rcases h3 with ⟨hc1, hc2⟩ | ⟨hc1, hc2⟩ <;> linarith

/-- Witness for claim C4 at humidity 18.0, pH 5.0 (between the critical
and ideal lower bounds), both nutrient flags true. -/
theorem umidade_baixa_ph_fora_ideal_desliga_witness :
    (decidePump 18 5 true true).ligarBomba = false :=
  umidade_baixa_ph_fora_ideal_desliga 18 5 true true (by norm_num)
    (by norm_num) (Or.inl (by norm_num))

/-- Claim C5: high-humidity stop and dead-band idle.  For every valid
snapshot with humidity at least 20.0 and estimated pH inside [4.5, 7.5]
the decision cascade commands the pump off — this covers both the
dead-band 20.0 ≤ humidity ≤ 30.0 and the high-humidity stop
humidity > 30.0 — whatever the nutrient flags are. -/
theorem umidade_alta_ou_ok_desliga (u ph : ℚ) (f k : Bool) (h1 : 20.0 ≤ u)
    (h2 : 4.5 ≤ ph) (h3 : ph ≤ 7.5) :
    (decidePump u ph f k).ligarBomba = false := by
  cases hB : (decidePump u ph f k).ligarBomba with
  | false => rfl
  | true =>
      exfalso
      rcases (decidePump_ligar_iff u ph f k).mp hB with hg | ⟨hg1, hg2, hg3⟩ <;>
        linarith

/-- Witness for claim C5 at the concrete snapshot of end-to-end scenario 2
(humidity 25.0, pH 6.0 — dead-band) applied with both nutrient flags
true. -/
theorem umidade_alta_ou_ok_desliga_witness :
    (decidePump 25 6 true true).ligarBomba = false :=
  umidade_alta_ou_ok_desliga 25 6 true true (by norm_num) (by norm_num)
    (by norm_num)

/-- Claim C6: the analog-to-pH mapping does not compute
`raw * 14.0 / 4095.0`.  Arduino's `map` has `long` parameters, so the call
`map(valorLDR, 0, 4095, 0.0, 14.0)` truncates the bounds to `0` and `14`
and divides in the integers: the code yields `floor(raw * 14 / 4095)`.
The anchor points raw = 0, 4095, 2048 do land on 0.0, 14.0 and 7.0 as the
claim says, but at raw = 1000 the code yields 3.0 while the specified
formula yields 14000/4095 ≈ 3.419. -/
theorem ph_mapeamento_trunca :
    phEstimadoOf 0 = 0 ∧ phEstimadoOf 4095 = 14 ∧ phEstimadoOf 2048 = 7 ∧
      phEstimadoOf 1000 = 3 ∧ phEstimadoOf 1000 ≠ phSpecFormula 1000 := by
  refine ⟨?_, ?_, ?_, ?_, ?_⟩ <;> rw [phEstimadoOf_eq] <;>
    norm_num [phSpecFormula]

/-- Claim C7: sensor-failure fail-safe.  When the humidity or the
temperature reading is `NaN`, the iteration forces the relay `LOW`,
produces and reports no decision, ends with the 2000 ms retry delay, and —
since `runCycles` is a pointwise map with no carried state — leaves every
later cycle exactly as it would have been. -/
theorem falha_dht_failsafe (f k : Bool) (ldr : ℕ) (hu ht : Option ℚ)
    (rest : List CycleInput) (h : hu = none ∨ ht = none) :
    loopStep ⟨f, k, ldr, hu, ht⟩ = ⟨false, none, 2000⟩ ∧
      runCycles (⟨f, k, ldr, hu, ht⟩ :: rest) =
        loopStep ⟨f, k, ldr, hu, ht⟩ :: runCycles rest := by
  refine ⟨?_, rfl⟩
  rcases h with h | h <;> subst h
  · cases ht <;> rfl
  · cases hu <;> rfl

/-- Witness for claim C7: a failed humidity reading (scenario 5) with a
valid temperature, followed by one ordinary cycle. -/
theorem falha_dht_failsafe_witness :
    loopStep ⟨true, true, 2048, none, some 25⟩ = ⟨false, none, 2000⟩ ∧
      runCycles (⟨true, true, 2048, none, some 25⟩ ::
          [⟨false, false, 1000, some 25, some 20⟩]) =
        loopStep ⟨true, true, 2048, none, some 25⟩ ::
          runCycles [⟨false, false, 1000, some 25, some 20⟩] :=
  falha_dht_failsafe true true 2048 none (some 25)
    [⟨false, false, 1000, some 25, some 20⟩] (Or.inl rfl)

/-- Claim C8: estimated-pH range invariant.  For every raw analog reading
in [0, 4095] the value `phEstimado` constructed by the acquisition code
lies within [0.0, 14.0]. -/
theorem ph_estimado_invariante (raw : ℕ) (h : raw ≤ 4095) :
    0 ≤ phEstimadoOf raw ∧ phEstimadoOf raw ≤ 14 := by
  rw [phEstimadoOf_eq]
  constructor
  · exact Nat.cast_nonneg _
  · have hdiv : raw * 14 / 4095 ≤ 14 := by omega
    exact_mod_cast hdiv

/-- Witness for claim C8 at the mid-scale reading raw = 2048. -/
theorem ph_estimado_invariante_witness :
    0 ≤ phEstimadoOf 2048 ∧ phEstimadoOf 2048 ≤ 14 :=
  ph_estimado_invariante 2048 (by norm_num)

/-- Claim C9: temperature noninterference.  Two valid cycles that agree on
the nutrient flags, the analog reading and the humidity but carry any two
(non-NaN) temperatures produce identical results: same relay command, same
decision (activation and reason) and same delay — temperature never
influences the pump decision. -/
theorem temperatura_nao_interfere (f k : Bool) (ldr : ℕ) (u t1 t2 : ℚ) :
    loopStep ⟨f, k, ldr, some u, some t1⟩ =
      loopStep ⟨f, k, ldr, some u, some t2⟩ :=
  rfl

/-- Claim C10: complete activation characterisation.  For every valid
cycle (humidity and temperature non-NaN, raw analog reading in [0, 4095]),
the relay is commanded `HIGH` exactly when humidity < 15.0, or
humidity < 20.0 with the estimated pH inside [5.5, 6.5]; in particular the
pump is never commanded on once humidity ≥ 20.0. -/
theorem caracterizacao_ativacao (f k : Bool) (raw : ℕ) (u t : ℚ)
    (h : raw ≤ 4095) :
    (loopStep ⟨f, k, raw, some u, some t⟩).releBomba = true ↔
      u < 15.0 ∨
        (u < 20.0 ∧ 5.5 ≤ phEstimadoOf raw ∧ phEstimadoOf raw ≤ 6.5) :=
  decidePump_ligar_iff u (phEstimadoOf raw) f k

/-- Witness for claim C10 at the dead-band snapshot (humidity 25.0,
raw = 2048, temperature 22.0, no nutrients): both sides of the
characterisation are false there. -/
theorem caracterizacao_ativacao_witness :
    (loopStep ⟨false, false, 2048, some 25, some 22⟩).releBomba = true ↔
      (25 : ℚ) < 15.0 ∨
        ((25 : ℚ) < 20.0 ∧ 5.5 ≤ phEstimadoOf 2048 ∧
          phEstimadoOf 2048 ≤ 6.5) :=
  caracterizacao_ativacao false false 2048 25 22 (by norm_num)

end FarmTech
